import Mathlib

/-!
Verification of the batch-assembly state machine `BatchAdaptIter`
(src/src/io/iter_batch.h) against its natural-language specification.

The C++ class adapts a per-sample iterator `IIterator<DataInst>` into a
batch iterator: `Next` pulls samples from the base iterator into dense
per-batch buffers, handling the short final batch either by round-robin
wrap-around into the next epoch (`round_batch`) or by publishing a
partially filled batch with a padding count.

The embedding below is a direct state-passing translation: the base
iterator is modelled as a list-backed cursor, the tensor payloads as
opaque values of a type `α` (the code only ever copies whole rows with
`mshadow::Copy`, so the element type is irrelevant), and the two fatal
`CHECK` conditions as `none` results.
-/

namespace MxNet

/-- One sample from the base iterator (model of `DataInst`): `data0` is the
data tensor `d.data[0]`, `data1` the label tensor `d.data[1]`, `index` the
source index `d.index`. -/
structure DataInst (α : Type) where
  data0 : α
  data1 : α
  index : Nat
deriving DecidableEq, Repr

/-- List-backed model of the base iterator `IIterator<DataInst>`: `dataset`
is the sample sequence of one epoch, `pos` the number of samples consumed
since the last restart. -/
structure BaseIter (α : Type) where
  dataset : List (DataInst α)
  pos : Nat
deriving DecidableEq, Repr

/-- `base_->BeforeFirst()`: restart the base iterator from the beginning. -/
def BaseIter.BeforeFirst (b : BaseIter α) : BaseIter α :=
  { b with pos := 0 }

/-- `base_->Next()` followed by `base_->Value()`: the next sample and the
advanced iterator, or `none` when the current epoch is exhausted. -/
def BaseIter.Next (b : BaseIter α) : Option (DataInst α) × BaseIter α :=
  match b.dataset.get? b.pos with
  | some d => (some d, { b with pos := b.pos + 1 })
  | none => (none, b)

/-- The configuration surface `BatchParam` (`input_shape`, `label_width` and
`silent` only feed allocation and logging, which the claims do not touch). -/
structure BatchParam where
  batch_size : Nat
  input_shape : Nat × Nat × Nat
  label_width : Nat
  round_batch : Bool
  test_skipread : Bool
  silent : Bool
deriving DecidableEq, Repr

/-- The published batch (model of `DataBatch`).  In the C++ the dense
buffers `data` and `label` live in the iterator and `out_.data[0/1]` are
zero-copy views into them published on success; the model stores the buffer
rows directly in the batch, one entry per batch slot. -/
structure DataBatch (α : Type) where
  num_batch_padd : Nat
  inst_index : List Nat
  batch_size : Nat
  data : List α
  label : List α
deriving DecidableEq, Repr

/-- The `BatchAdaptIter` state: parameters, base iterator, output batch,
the `head_` marker and the `num_overflow_` counter. -/
structure BatchAdaptIter (α : Type) where
  param_ : BatchParam
  base_ : BaseIter α
  out_ : DataBatch α
  head_ : Nat
  num_overflow_ : Nat
deriving DecidableEq, Repr

/-- `AllocSpaceDense`: allocate the `[batch_size, ...]` data and label
buffers (zero-filled by `mshadow::NewTensor`, modelled by the fill value
`z`) and the `inst_index` array of length `batch_size` (`new unsigned[...]`
leaves entries indeterminate; modelled as zeros). -/
def AllocSpaceDense (p : BatchParam) (z : α) : DataBatch α :=
  { num_batch_padd := 0
    inst_index := List.replicate p.batch_size 0
    batch_size := p.batch_size
    data := List.replicate p.batch_size z
    label := List.replicate p.batch_size z }

/-- Construction plus `Init`: bind the parameters, hand the (already
initialised) base iterator over, and allocate the dense buffers.  The C++
constructor leaves `head_` uninitialised; `1` reflects the documented
"no batch published yet" state. -/
def Init (p : BatchParam) (ds : List (DataInst α)) (z : α) : BatchAdaptIter α :=
  { param_ := p
    base_ := { dataset := ds, pos := 0 }
    out_ := AllocSpaceDense p z
    head_ := 1
    num_overflow_ := 0 }

/-- `BatchAdaptIter::BeforeFirst`: restart the base iterator unless
`round_batch` is on and an overflow from a previous wrap is pending, in
which case only `num_overflow_` is cleared; always set `head_ = 1`. -/
def BeforeFirst (st : BatchAdaptIter α) : BatchAdaptIter α :=
  let st :=
    if st.param_.round_batch = false ∨ st.num_overflow_ = 0 then
      { st with base_ := st.base_.BeforeFirst }
    else
      { st with num_overflow_ := 0 }
  { st with head_ := 1 }

/-- Store one sample at slot `top`: `mshadow::Copy(label[top], d.data[1])`,
`out_.inst_index[top] = d.index`, `mshadow::Copy(data[top], d.data[0])`. -/
def store (out : DataBatch α) (top : Nat) (d : DataInst α) : DataBatch α :=
  { out with
      label := out.label.set top d.data1
      inst_index := out.inst_index.set top d.index
      data := out.data.set top d.data0 }

/-- Result of the `while (base_->Next())` fill loop: `full` when
`++top >= batch_size` returned from inside the loop, `exhausted` with the
final `top` when the base iterator ran out first. -/
inductive FillResult (α : Type) where
  | full (base : BaseIter α) (out : DataBatch α)
  | exhausted (base : BaseIter α) (out : DataBatch α) (top : Nat)
deriving DecidableEq, Repr

/-- The `while (base_->Next())` loop of `Next`, filling slots from `top`
upward.  `fuel` bounds the recursion; `Next` calls it with
`fuel = batch_size`, which is never exhausted (the loop returns `full`
after at most `batch_size - top` iterations). -/
def fillLoop (B : Nat) (base : BaseIter α) (out : DataBatch α) (top fuel : Nat) :
    FillResult α :=
  match base.Next with
  | (none, base') => .exhausted base' out top
  | (some d, base') =>
    let out' := store out top d
    if top + 1 ≥ B then .full base' out'
    else
      match fuel with
      | 0 => .full base' out'
      | fuel' + 1 => fillLoop B base' out' (top + 1) fuel'

/-- The round-robin refill loop
`for (; top < batch_size; ++top, ++num_overflow_) { CHECK(base_->Next()); ... }`.
`none` models the fatal `CHECK` failure ("number of input must be bigger
than batch size").  `fuel` bounds the recursion; the caller passes
`batch_size - top`, which is never exhausted. -/
def refillLoop (B : Nat) (base : BaseIter α) (out : DataBatch α)
    (top novf fuel : Nat) : Option (BaseIter α × DataBatch α × Nat) :=
  if top < B then
    match base.Next with
    | (none, _) => none
    | (some d, base') =>
      match fuel with
      | 0 => none
      | fuel' + 1 => refillLoop B base' (store out top d) (top + 1) (novf + 1) fuel'
  else
    some (base, out, novf)

/-- `BatchAdaptIter::Next`.  `none` models the fatal `CHECK` inside the
round-robin refill; `some (b, st')` is the returned bool together with the
post state.  The publication steps `out_.data[0] = TBlob(data)` are
zero-copy view updates and are no-ops in the model (the batch already
holds the buffers). -/
def Next (st : BatchAdaptIter α) : Option (Bool × BatchAdaptIter α) :=
  let st := { st with out_ := { st.out_ with num_batch_padd := 0 } }
  if st.param_.test_skipread = true ∧ st.head_ = 0 then
    some (true, st)
  else
    let st := { st with head_ := 0 }
    if st.num_overflow_ ≠ 0 then some (false, st)
    else
      match fillLoop st.param_.batch_size st.base_ st.out_ 0 st.param_.batch_size with
      | .full base' out' =>
        some (true, { st with base_ := base', out_ := out' })
      | .exhausted base' out' top =>
        if top ≠ 0 then
          if st.param_.round_batch = true then
            match refillLoop st.param_.batch_size base'.BeforeFirst out' top 0
                (st.param_.batch_size - top) with
            | none => none
            | some (base2, out2, novf) =>
              some (true, { st with
                base_ := base2
                num_overflow_ := novf
                out_ := { out2 with num_batch_padd := novf } })
          else
            some (true, { st with
              base_ := base'
              out_ := { out' with num_batch_padd := st.param_.batch_size - top } })
        else
          some (false, { st with base_ := base', out_ := out' })

/-- `BatchAdaptIter::Value`: `CHECK(head_ == 0) << "must call Next to get value"`.
`none` models the fatal usage-error `CHECK`. -/
def Value (st : BatchAdaptIter α) : Option (DataBatch α) :=
  if st.head_ = 0 then some st.out_ else none

/-- Apply `Next` and keep the post state (identity on a fatal `CHECK`). -/
def stepState (st : BatchAdaptIter α) : BatchAdaptIter α :=
  match Next st with
  | some (_, st') => st'
  | none => st

/-- The bool `Next` returns (`false` on a fatal `CHECK`). -/
def stepOk (st : BatchAdaptIter α) : Bool :=
  match Next st with
  | some (b, _) => b
  | none => false

/-- Apply `Next` `n` times, keeping states. -/
def stepN : Nat → BatchAdaptIter α → BatchAdaptIter α
  | 0, st => st
  | n + 1, st => stepN n (stepState st)

/-- Concrete sample `i` whose payloads record its own index. -/
def sampleOf (i : Nat) : DataInst Nat :=
  { data0 := i, data1 := i, index := i }

/-- Concrete dataset of `n` samples indexed `0..n-1`. -/
def dsOf (n : Nat) : List (DataInst Nat) :=
  (List.range n).map sampleOf

/-- Concrete parameter set with the defaults for the fields the claims do
not vary. -/
def paramOf (B : Nat) (rb skip : Bool) : BatchParam :=
  { batch_size := B, input_shape := (3, 224, 224), label_width := 1,
    round_batch := rb, test_skipread := skip, silent := false }

/-! ### Inversion lemmas for the base iterator -/

/-- A failing `base_->Next()` leaves the base iterator unchanged and means
the cursor is at or past the end of the epoch. -/
theorem BaseIter.Next_none {b b' : BaseIter α} (h : b.Next = (none, b')) :
    b' = b ∧ b.dataset.get? b.pos = none := by
  unfold BaseIter.Next at h
  cases hg : b.dataset.get? b.pos <;> rw [hg] at h <;> simp_all

/-- A successful `base_->Next()` yields the sample under the cursor and
advances the cursor by one. -/
theorem BaseIter.Next_some {b b' : BaseIter α} {d : DataInst α}
    (h : b.Next = (some d, b')) :
    b' = { b with pos := b.pos + 1 } ∧ b.dataset.get? b.pos = some d := by
  unfold BaseIter.Next at h
  cases hg : b.dataset.get? b.pos <;> rw [hg] at h <;> simp_all

/-! ### Lemmas about the fill loop -/

/-- The fill loop never touches the padding count, the `batch_size` field or
the lengths of the three slot arrays (exhausted case). -/
theorem fillLoop_exh_pres (B : Nat) :
    ∀ (fuel : Nat) (base : BaseIter α) (out : DataBatch α) (top : Nat)
      (b' : BaseIter α) (o' : DataBatch α) (t' : Nat),
      fillLoop B base out top fuel = .exhausted b' o' t' →
      o'.num_batch_padd = out.num_batch_padd ∧
      o'.batch_size = out.batch_size ∧
      o'.data.length = out.data.length ∧
      o'.label.length = out.label.length ∧
      o'.inst_index.length = out.inst_index.length := by
  intro fuel
  induction fuel with
  | zero =>
    intro base out top b' o' t' h
    unfold fillLoop at h
    rcases hb : base.Next with ⟨o, bb⟩
    rw [hb] at h
    cases o with
    | none => simp at h; obtain ⟨h1, h2, h3⟩ := h; subst h2; simp
    | some d => simp at h
  | succ f ih =>
    intro base out top b' o' t' h
    unfold fillLoop at h
    rcases hb : base.Next with ⟨o, bb⟩
    rw [hb] at h
    cases o with
    | none => simp at h; obtain ⟨h1, h2, h3⟩ := h; subst h2; simp
    | some d =>
      simp at h
      split at h
      · simp at h
      · have := ih bb (store out top d) (top + 1) b' o' t' h
        simpa [store] using this

/-- Same preservation facts for a fill loop that returned a full batch. -/
theorem fillLoop_full_pres (B : Nat) :
    ∀ (fuel : Nat) (base : BaseIter α) (out : DataBatch α) (top : Nat)
      (b' : BaseIter α) (o' : DataBatch α),
      fillLoop B base out top fuel = .full b' o' →
      o'.num_batch_padd = out.num_batch_padd ∧
      o'.batch_size = out.batch_size ∧
      o'.data.length = out.data.length ∧
      o'.label.length = out.label.length ∧
      o'.inst_index.length = out.inst_index.length := by
  intro fuel
  induction fuel with
  | zero =>
    intro base out top b' o' h
    unfold fillLoop at h
    rcases hb : base.Next with ⟨o, bb⟩
    rw [hb] at h
    cases o with
    | none => simp at h
    | some d =>
      simp at h
      obtain ⟨h1, h2⟩ := h; subst h2; simp [store]
  | succ f ih =>
    intro base out top b' o' h
    unfold fillLoop at h
    rcases hb : base.Next with ⟨o, bb⟩
    rw [hb] at h
    cases o with
    | none => simp at h
    | some d =>
      simp at h
      split at h
      · simp at h; obtain ⟨h1, h2⟩ := h; subst h2; simp [store]
      · have := ih bb (store out top d) (top + 1) b' o' h
        simpa [store] using this

/-- The fill loop preserves the dataset of the base iterator (exhausted
case) and ends with the cursor where the failing pull left it. -/
theorem fillLoop_exh_dataset (B : Nat) :
    ∀ (fuel : Nat) (base : BaseIter α) (out : DataBatch α) (top : Nat)
      (b' : BaseIter α) (o' : DataBatch α) (t' : Nat),
      fillLoop B base out top fuel = .exhausted b' o' t' →
      b'.dataset = base.dataset ∧ b'.dataset.get? b'.pos = none := by
  intro fuel
  induction fuel with
  | zero =>
    intro base out top b' o' t' h
    unfold fillLoop at h
    rcases hb : base.Next with ⟨o, bb⟩
    rw [hb] at h
    cases o with
    | none =>
      simp at h
      obtain ⟨h1, h2, h3⟩ := h
      obtain ⟨hbb, hg⟩ := BaseIter.Next_none hb
      subst h1; subst hbb; exact ⟨rfl, hg⟩
    | some d => simp at h
  | succ f ih =>
    intro base out top b' o' t' h
    unfold fillLoop at h
    rcases hb : base.Next with ⟨o, bb⟩
    rw [hb] at h
    cases o with
    | none =>
      simp at h
      obtain ⟨h1, h2, h3⟩ := h
      obtain ⟨hbb, hg⟩ := BaseIter.Next_none hb
      subst h1; subst hbb; exact ⟨rfl, hg⟩
    | some d =>
      simp at h
      split at h
      · simp at h
      · obtain ⟨hds, hg⟩ := ih bb (store out top d) (top + 1) b' o' t' h
        obtain ⟨hbb, _⟩ := BaseIter.Next_some hb
        subst hbb
        exact ⟨hds, hg⟩

/-- The exhausted fill loop only moves `top` up, and if it did not move it
at all then nothing was consumed and nothing was written. -/
theorem fillLoop_exh_mono (B : Nat) :
    ∀ (fuel : Nat) (base : BaseIter α) (out : DataBatch α) (top : Nat)
      (b' : BaseIter α) (o' : DataBatch α) (t' : Nat),
      fillLoop B base out top fuel = .exhausted b' o' t' →
      top ≤ t' ∧ (t' = top → b' = base ∧ o' = out) := by
  intro fuel
  induction fuel with
  | zero =>
    intro base out top b' o' t' h
    unfold fillLoop at h
    rcases hb : base.Next with ⟨o, bb⟩
    rw [hb] at h
    cases o with
    | none =>
      simp at h
      obtain ⟨h1, h2, h3⟩ := h
      obtain ⟨hbb, _⟩ := BaseIter.Next_none hb
      subst h1; subst h2; subst h3; subst hbb
      exact ⟨le_refl _, fun _ => ⟨rfl, rfl⟩⟩
    | some d => simp at h
  | succ f ih =>
    intro base out top b' o' t' h
    unfold fillLoop at h
    rcases hb : base.Next with ⟨o, bb⟩
    rw [hb] at h
    cases o with
    | none =>
      simp at h
      obtain ⟨h1, h2, h3⟩ := h
      obtain ⟨hbb, _⟩ := BaseIter.Next_none hb
      subst h1; subst h2; subst h3; subst hbb
      exact ⟨le_refl _, fun _ => ⟨rfl, rfl⟩⟩
    | some d =>
      simp at h
      split at h
      · simp at h
      · obtain ⟨hle, _⟩ := ih bb (store out top d) (top + 1) b' o' t' h
        exact ⟨by omega, fun ht => absurd ht (by omega)⟩

/-- The exhausted fill loop writes only slots below the final `top`: every
slot at or above it keeps its previous contents. -/
theorem fillLoop_exh_frame (B : Nat) :
    ∀ (fuel : Nat) (base : BaseIter α) (out : DataBatch α) (top : Nat)
      (b' : BaseIter α) (o' : DataBatch α) (t' : Nat),
      fillLoop B base out top fuel = .exhausted b' o' t' →
      ∀ i, t' ≤ i →
        o'.data.get? i = out.data.get? i ∧
        o'.label.get? i = out.label.get? i ∧
        o'.inst_index.get? i = out.inst_index.get? i := by
  intro fuel
  induction fuel with
  | zero =>
    intro base out top b' o' t' h
    unfold fillLoop at h
    rcases hb : base.Next with ⟨o, bb⟩
    rw [hb] at h
    cases o with
    | none => simp at h; obtain ⟨h1, h2, h3⟩ := h; subst h2; simp
    | some d => simp at h
  | succ f ih =>
    intro base out top b' o' t' h
    unfold fillLoop at h
    rcases hb : base.Next with ⟨o, bb⟩
    rw [hb] at h
    cases o with
    | none => simp at h; obtain ⟨h1, h2, h3⟩ := h; subst h2; simp
    | some d =>
      simp at h
      split at h
      · simp at h
      · intro i hi
        obtain ⟨hmono, _⟩ := fillLoop_exh_mono B f bb (store out top d) (top + 1) b' o' t' h
        have htop : top ≠ i := by omega
        obtain ⟨h1, h2, h3⟩ := ih bb (store out top d) (top + 1) b' o' t' h i hi
        refine ⟨?_, ?_, ?_⟩
        · rw [h1]; simp [store, List.getElem?_set_ne htop]
        · rw [h2]; simp [store, List.getElem?_set_ne htop]
        · rw [h3]; simp [store, List.getElem?_set_ne htop]

/-- Where the exhausted fill loop can end: either it never iterated, or the
final `top` is below `batch_size` (each iteration recurses only while
`top + 1 < batch_size`). -/
theorem fillLoop_exh_topB (B : Nat) :
    ∀ (fuel : Nat) (base : BaseIter α) (out : DataBatch α) (top : Nat)
      (b' : BaseIter α) (o' : DataBatch α) (t' : Nat),
      fillLoop B base out top fuel = .exhausted b' o' t' →
      t' = top ∨ t' < B := by
  intro fuel
  induction fuel with
  | zero =>
    intro base out top b' o' t' h
    unfold fillLoop at h
    rcases hb : base.Next with ⟨o, bb⟩
    rw [hb] at h
    cases o with
    | none => simp at h; obtain ⟨h1, h2, h3⟩ := h; omega
    | some d => simp at h
  | succ f ih =>
    intro base out top b' o' t' h
    unfold fillLoop at h
    rcases hb : base.Next with ⟨o, bb⟩
    rw [hb] at h
    cases o with
    | none => simp at h; obtain ⟨h1, h2, h3⟩ := h; omega
    | some d =>
      simp at h
      split at h
      · simp at h
      · rcases ih bb (store out top d) (top + 1) b' o' t' h with ht | ht <;> omega

/-! ### Lemmas about the round-robin refill loop -/

/-- Whenever the refill loop completes, the final `num_overflow_` equals the
starting value plus the number of slots it had to fill, and the padding
count, `batch_size` field and array lengths are untouched. -/
theorem refillLoop_some_facts (B : Nat) :
    ∀ (fuel top novf : Nat) (base : BaseIter α) (out : DataBatch α)
      (b2 : BaseIter α) (o2 : DataBatch α) (n : Nat),
      refillLoop B base out top novf fuel = some (b2, o2, n) →
      n = novf + (B - top) ∧
      o2.num_batch_padd = out.num_batch_padd ∧
      o2.batch_size = out.batch_size ∧
      o2.data.length = out.data.length ∧
      o2.label.length = out.label.length ∧
      o2.inst_index.length = out.inst_index.length := by
  intro fuel
  induction fuel with
  | zero =>
    intro top novf base out b2 o2 n h
    unfold refillLoop at h
    split at h
    · rcases hb : base.Next with ⟨o, bb⟩
      rw [hb] at h
      cases o <;> simp at h
    · simp at h
      obtain ⟨h1, h2, h3⟩ := h
      subst h2
      refine ⟨by omega, rfl, rfl, rfl, rfl, rfl⟩
  | succ f ih =>
    intro top novf base out b2 o2 n h
    unfold refillLoop at h
    split at h
    · rcases hb : base.Next with ⟨o, bb⟩
      rw [hb] at h
      cases o with
      | none => simp at h
      | some d =>
        simp at h
        have := ih (top + 1) (novf + 1) bb (store out top d) b2 o2 n h
        rename_i htop
        simp [store] at this
        refine ⟨by omega, ?_, ?_, ?_, ?_, ?_⟩ <;> simp [this]
    · simp at h
      obtain ⟨h1, h2, h3⟩ := h
      subst h2
      refine ⟨by omega, rfl, rfl, rfl, rfl, rfl⟩

/-- When the restarted epoch holds enough samples, the refill loop
succeeds: it consumes exactly `B - top` samples, adds `B - top` to
`num_overflow_`, writes their indices into slots `top..B-1` and leaves the
slots below `top` alone. -/
theorem refillLoop_success (B : Nat) :
    ∀ (fuel top novf : Nat) (base : BaseIter α) (out : DataBatch α),
      fuel = B - top → top ≤ B →
      out.inst_index.length = B →
      base.pos + (B - top) ≤ base.dataset.length →
      ∃ b2 o2,
        refillLoop B base out top novf fuel = some (b2, o2, novf + (B - top)) ∧
        b2.dataset = base.dataset ∧
        b2.pos = base.pos + (B - top) ∧
        (∀ j, j < B - top →
          o2.inst_index.get? (top + j) =
            (base.dataset.get? (base.pos + j)).map DataInst.index) ∧
        (∀ i, i < top → o2.inst_index.get? i = out.inst_index.get? i) := by
  intro fuel
  induction fuel with
  | zero =>
    intro top novf base out hfuel htop hlen hpos
    have htopB : top = B := by omega
    refine ⟨base, out, ?_, rfl, by omega, ?_, fun i _ => rfl⟩
    · unfold refillLoop
      rw [if_neg (by omega)]
      simp [htopB]
    · intro j hj; omega
  | succ f ih =>
    intro top novf base out hfuel htop hlen hpos
    have htopB : top < B := by omega
    have hlt : base.pos < base.dataset.length := by omega
    have hgd : base.dataset.get? base.pos = some (base.dataset.get ⟨base.pos, hlt⟩) :=
      List.get?_eq_get hlt
    set d := base.dataset.get ⟨base.pos, hlt⟩ with hd
    have hnext : base.Next = (some d, { base with pos := base.pos + 1 }) := by
      unfold BaseIter.Next; rw [hgd]
    obtain ⟨b2, o2, heq, hds, hpos2, hcontent, hframe⟩ :=
      ih (top + 1) (novf + 1) { base with pos := base.pos + 1 } (store out top d)
        (by omega) (by omega) (by simp [store, hlen]) (by simp; omega)
    refine ⟨b2, o2, ?_, hds, by simp at hpos2; omega, ?_, ?_⟩
    · have harith : novf + 1 + (B - (top + 1)) = novf + (B - top) := by omega
      unfold refillLoop
      rw [if_pos htopB, hnext]
      dsimp only
      rw [heq, harith]
    · intro j hj
      cases j with
      | zero =>
        have hfr : o2.inst_index.get? top = (store out top d).inst_index.get? top :=
          hframe top (by omega)
        simp only [Nat.add_zero, hfr, hgd, store, Option.map_some']
        rw [List.get?_eq_getElem?]
        rw [List.getElem?_set_self (show top < out.inst_index.length by omega)]
      | succ j' =>
        have hj' : j' < B - (top + 1) := by omega
        have := hcontent j' hj'
        simp only [show top + (j' + 1) = top + 1 + j' by omega,
          show base.pos + (j' + 1) = base.pos + 1 + j' by omega]
        simpa using this
    · intro i hi
      have := hframe i (by omega)
      rw [this]
      simp [store]
      exact List.getElem?_set_ne (by omega)

/-- When the restarted epoch is too short, the refill loop hits the fatal
`CHECK`. -/
theorem refillLoop_fail (B : Nat) :
    ∀ (fuel top novf : Nat) (base : BaseIter α) (out : DataBatch α),
      fuel = B - top →
      base.pos ≤ base.dataset.length →
      base.dataset.length < base.pos + (B - top) →
      refillLoop B base out top novf fuel = none := by
  intro fuel
  induction fuel with
  | zero =>
    intro top novf base out hfuel hle hlt
    omega
  | succ f ih =>
    intro top novf base out hfuel hle hlt
    have htopB : top < B := by omega
    unfold refillLoop
    rw [if_pos htopB]
    cases hgd : base.dataset.get? base.pos with
    | none =>
      have hnext : base.Next = (none, base) := by
        unfold BaseIter.Next; rw [hgd]
      rw [hnext]
    | some d =>
      have hnext : base.Next = (some d, { base with pos := base.pos + 1 }) := by
        unfold BaseIter.Next; rw [hgd]
      rw [hnext]
      have hplt : base.pos < base.dataset.length := by
        by_contra hc
        rw [List.get?_eq_none.mpr (by omega)] at hgd
        exact Option.noConfusion hgd
      exact ih (top + 1) (novf + 1) { base with pos := base.pos + 1 }
        (store out top d) (by omega) (by simp; omega) (by simp; omega)

/-! ### Branch characterizations of `Next` -/

/-- The skip branch: `test_skipread` with `head_ == 0` returns success at
once; only the padding count (reset on entry) changes. -/
theorem Next_skip {st : BatchAdaptIter α} (hs : st.param_.test_skipread = true)
    (hh : st.head_ = 0) :
    Next st = some (true, { st with out_ := { st.out_ with num_batch_padd := 0 } }) := by
  unfold Next
  rw [if_pos ⟨hs, hh⟩]

/-- The pending-overflow branch: `num_overflow_ != 0` returns `false` after
clearing `head_` and the padding count, touching nothing else. -/
theorem Next_overflow {st : BatchAdaptIter α}
    (hns : ¬(st.param_.test_skipread = true ∧ st.head_ = 0))
    (ho : st.num_overflow_ ≠ 0) :
    Next st = some (false,
      { st with head_ := 0, out_ := { st.out_ with num_batch_padd := 0 } }) := by
  unfold Next
  rw [if_neg hns, if_pos ho]

/-- The full-batch branch: the fill loop reached `batch_size` samples. -/
theorem Next_full {st : BatchAdaptIter α} {b' : BaseIter α} {o' : DataBatch α}
    (hns : ¬(st.param_.test_skipread = true ∧ st.head_ = 0))
    (ho : st.num_overflow_ = 0)
    (hfill : fillLoop st.param_.batch_size st.base_
        { st.out_ with num_batch_padd := 0 } 0 st.param_.batch_size = .full b' o') :
    Next st = some (true, { st with head_ := 0, base_ := b', out_ := o' }) := by
  unfold Next
  rw [if_neg hns, if_neg (by simpa using ho)]
  rw [hfill]

/-- The empty-exhaustion branch: the base iterator yielded nothing, so
`Next` returns `false`. -/
theorem Next_exhausted_zero {st : BatchAdaptIter α} {b' : BaseIter α} {o' : DataBatch α}
    (hns : ¬(st.param_.test_skipread = true ∧ st.head_ = 0))
    (ho : st.num_overflow_ = 0)
    (hfill : fillLoop st.param_.batch_size st.base_
        { st.out_ with num_batch_padd := 0 } 0 st.param_.batch_size = .exhausted b' o' 0) :
    Next st = some (false, { st with head_ := 0, base_ := b', out_ := o' }) := by
  unfold Next
  rw [if_neg hns, if_neg (by simpa using ho)]
  rw [hfill]
  dsimp only
  simp

/-- The round-robin wrap branch with a successful refill. -/
theorem Next_wrap {st : BatchAdaptIter α} {b' b2 : BaseIter α} {o' o2 : DataBatch α}
    {top n : Nat}
    (hns : ¬(st.param_.test_skipread = true ∧ st.head_ = 0))
    (ho : st.num_overflow_ = 0)
    (hrb : st.param_.round_batch = true)
    (hfill : fillLoop st.param_.batch_size st.base_
        { st.out_ with num_batch_padd := 0 } 0 st.param_.batch_size = .exhausted b' o' top)
    (htop : top ≠ 0)
    (hrefill : refillLoop st.param_.batch_size b'.BeforeFirst o' top 0
        (st.param_.batch_size - top) = some (b2, o2, n)) :
    Next st = some (true, { st with
      head_ := 0
      base_ := b2
      num_overflow_ := n
      out_ := { o2 with num_batch_padd := n } }) := by
  unfold Next
  rw [if_neg hns, if_neg (by simpa using ho)]
  rw [hfill]
  dsimp only
  rw [if_pos htop, if_pos hrb, hrefill]

/-- The round-robin wrap branch when the refill hits the fatal `CHECK`. -/
theorem Next_wrap_fatal {st : BatchAdaptIter α} {b' : BaseIter α} {o' : DataBatch α}
    {top : Nat}
    (hns : ¬(st.param_.test_skipread = true ∧ st.head_ = 0))
    (ho : st.num_overflow_ = 0)
    (hrb : st.param_.round_batch = true)
    (hfill : fillLoop st.param_.batch_size st.base_
        { st.out_ with num_batch_padd := 0 } 0 st.param_.batch_size = .exhausted b' o' top)
    (htop : top ≠ 0)
    (hrefill : refillLoop st.param_.batch_size b'.BeforeFirst o' top 0
        (st.param_.batch_size - top) = none) :
    Next st = none := by
  unfold Next
  rw [if_neg hns, if_neg (by simpa using ho)]
  rw [hfill]
  dsimp only
  rw [if_pos htop, if_pos hrb, hrefill]

/-- The short-final-batch branch with `round_batch` disabled: stale slots
are kept and the padding count declares them. -/
theorem Next_noround {st : BatchAdaptIter α} {b' : BaseIter α} {o' : DataBatch α}
    {top : Nat}
    (hns : ¬(st.param_.test_skipread = true ∧ st.head_ = 0))
    (ho : st.num_overflow_ = 0)
    (hrb : st.param_.round_batch = false)
    (hfill : fillLoop st.param_.batch_size st.base_
        { st.out_ with num_batch_padd := 0 } 0 st.param_.batch_size = .exhausted b' o' top)
    (htop : top ≠ 0) :
    Next st = some (true, { st with
      head_ := 0
      base_ := b'
      out_ := { o' with num_batch_padd := st.param_.batch_size - top } }) := by
  unfold Next
  rw [if_neg hns, if_neg (by simpa using ho)]
  rw [hfill]
  dsimp only
  rw [if_pos htop, if_neg (by simp [hrb])]

/-- Complete case inversion for a non-fatal `Next` call: exactly one of the
six control paths was taken (skip, pending overflow, full batch, round-robin
wrap, padded short batch, empty exhaustion). -/
theorem Next_inv {st st' : BatchAdaptIter α} {b : Bool} (h : Next st = some (b, st')) :
    (st.param_.test_skipread = true ∧ st.head_ = 0 ∧ b = true ∧
      st' = { st with out_ := { st.out_ with num_batch_padd := 0 } }) ∨
    (¬(st.param_.test_skipread = true ∧ st.head_ = 0) ∧ st.num_overflow_ ≠ 0 ∧ b = false ∧
      st' = { st with head_ := 0, out_ := { st.out_ with num_batch_padd := 0 } }) ∨
    (¬(st.param_.test_skipread = true ∧ st.head_ = 0) ∧ st.num_overflow_ = 0 ∧
      ∃ b' o', fillLoop st.param_.batch_size st.base_ { st.out_ with num_batch_padd := 0 } 0
          st.param_.batch_size = .full b' o' ∧ b = true ∧
        st' = { st with head_ := 0, base_ := b', out_ := o' }) ∨
    (¬(st.param_.test_skipread = true ∧ st.head_ = 0) ∧ st.num_overflow_ = 0 ∧
      st.param_.round_batch = true ∧
      ∃ b' o' top b2 o2 n,
        fillLoop st.param_.batch_size st.base_ { st.out_ with num_batch_padd := 0 } 0
          st.param_.batch_size = .exhausted b' o' top ∧ top ≠ 0 ∧
        refillLoop st.param_.batch_size b'.BeforeFirst o' top 0
          (st.param_.batch_size - top) = some (b2, o2, n) ∧ b = true ∧
        st' = { st with
          head_ := 0
          base_ := b2
          num_overflow_ := n
          out_ := { o2 with num_batch_padd := n } }) ∨
    (¬(st.param_.test_skipread = true ∧ st.head_ = 0) ∧ st.num_overflow_ = 0 ∧
      ¬(st.param_.round_batch = true) ∧
      ∃ b' o' top,
        fillLoop st.param_.batch_size st.base_ { st.out_ with num_batch_padd := 0 } 0
          st.param_.batch_size = .exhausted b' o' top ∧ top ≠ 0 ∧ b = true ∧
        st' = { st with
          head_ := 0
          base_ := b'
          out_ := { o' with num_batch_padd := st.param_.batch_size - top } }) ∨
    (¬(st.param_.test_skipread = true ∧ st.head_ = 0) ∧ st.num_overflow_ = 0 ∧
      ∃ b' o', fillLoop st.param_.batch_size st.base_ { st.out_ with num_batch_padd := 0 } 0
          st.param_.batch_size = .exhausted b' o' 0 ∧ b = false ∧
        st' = { st with head_ := 0, base_ := b', out_ := o' }) := by
  unfold Next at h
  dsimp only at h
  split at h
  · rename_i hcond
    left
    simp only [Option.some.injEq, Prod.mk.injEq] at h
    exact ⟨hcond.1, hcond.2, h.1.symm, h.2.symm⟩
  · rename_i hcond
    split at h
    · rename_i ho
      right; left
      simp only [Option.some.injEq, Prod.mk.injEq] at h
      exact ⟨hcond, ho, h.1.symm, h.2.symm⟩
    · rename_i ho
      simp at ho
      split at h
      · rename_i b' o' hfill
        right; right; left
        simp only [Option.some.injEq, Prod.mk.injEq] at h
        exact ⟨hcond, ho, b', o', hfill, h.1.symm, h.2.symm⟩
      · rename_i b' o' top hfill
        split at h
        · rename_i htop
          split at h
          · rename_i hrb
            split at h
            · simp at h
            · rename_i b2 o2 n hrefill
              right; right; right; left
              simp only [Option.some.injEq, Prod.mk.injEq] at h
              exact ⟨hcond, ho, hrb, b', o', top, b2, o2, n, hfill, htop, hrefill,
                h.1.symm, h.2.symm⟩
          · rename_i hrb
            right; right; right; right; left
            simp only [Option.some.injEq, Prod.mk.injEq] at h
            exact ⟨hcond, ho, hrb, b', o', top, hfill, htop, h.1.symm, h.2.symm⟩
        · rename_i htop
          simp at htop
          subst htop
          right; right; right; right; right
          simp only [Option.some.injEq, Prod.mk.injEq] at h
          exact ⟨hcond, ho, b', o', hfill, h.1.symm, h.2.symm⟩

/-! ### Concrete fixtures used by counterexamples and witnesses -/

/-- A state with a pending overflow of 2 under `round_batch` (as left by
the wrap in the fourth `Next` over a 10-sample dataset with batch size 3). -/
def ovfSt : BatchAdaptIter Nat :=
  { param_ := paramOf 3 true false
    base_ := { dataset := dsOf 10, pos := 2 }
    out_ := AllocSpaceDense (paramOf 3 true false) 0
    head_ := 0
    num_overflow_ := 2 }

/-- The state after `Restart` followed by one `Next` with `test_skipread`
enabled (`head_ = 0`, one batch already filled). -/
def skipSt : BatchAdaptIter Nat :=
  stepState (BeforeFirst (Init (paramOf 2 true true) (dsOf 4) 0))

/-! ### C2 -/

/-- C2: `Restart` delegates a full restart to the Source exactly when
`round_batch` is disabled or `num_overflow_ == 0`; when `round_batch` is
enabled and `num_overflow_ > 0` the Source is left in place — so the next
pull continues past the wrapped samples instead of re-emitting them — and
`num_overflow_` is reset to 0. -/
theorem C2_restart_delegation (st : BatchAdaptIter α) :
    ((st.param_.round_batch = false ∨ st.num_overflow_ = 0) →
      BeforeFirst st = { st with base_ := st.base_.BeforeFirst, head_ := 1 }) ∧
    (st.param_.round_batch = true ∧ st.num_overflow_ ≠ 0 →
      BeforeFirst st = { st with num_overflow_ := 0, head_ := 1 } ∧
      (BeforeFirst st).base_ = st.base_ ∧
      (BeforeFirst st).base_.Next = st.base_.Next) := by
  constructor
  · intro hc
    unfold BeforeFirst
    dsimp only
    rw [if_pos hc]
  · rintro ⟨hrb, hno⟩
    have hc : ¬(st.param_.round_batch = false ∨ st.num_overflow_ = 0) := by
      simp [hrb, hno]
    unfold BeforeFirst
    dsimp only
    rw [if_neg hc]
    exact ⟨rfl, rfl, rfl⟩

/-- Witness for C2 at a concrete wrapped state. -/
theorem C2_witness :
    BeforeFirst ovfSt = { ovfSt with num_overflow_ := 0, head_ := 1 } ∧
    (BeforeFirst ovfSt).base_ = ovfSt.base_ ∧
    (BeforeFirst ovfSt).base_.Next = ovfSt.base_.Next :=
  (C2_restart_delegation ovfSt).2 ⟨rfl, by decide⟩

/-! ### C3 -/

/-- C3 (counterexample): with `test_skipread = true`, batch size 2 over 4
samples, the FIRST Advance after Restart succeeds and consumes two samples
from the Source (cursor 0 → 2), and the SECOND Advance consumes nothing
(cursor stays at 2) — the opposite of the claimed order. -/
theorem C3_cex :
    stepOk (BeforeFirst (Init (paramOf 2 true true) (dsOf 4) 0)) = true ∧
    (stepState (BeforeFirst (Init (paramOf 2 true true) (dsOf 4) 0))).base_.pos = 2 ∧
    stepOk (stepState (BeforeFirst (Init (paramOf 2 true true) (dsOf 4) 0))) = true ∧
    (stepState (stepState (BeforeFirst (Init (paramOf 2 true true)
      (dsOf 4) 0)))).base_.pos = 2 := by
  decide

/-- C3 (amended): with `test_skipread` enabled, the first Advance after
Restart performs a normal fill and clears the fresh marker, while any call
that finds the marker already cleared returns success without consuming
from the Source, leaving slot contents unchanged but resetting the padding
count to 0. -/
theorem C3_skipread (st : BatchAdaptIter α) (b' : BaseIter α) (o' : DataBatch α)
    (hs : st.param_.test_skipread = true) :
    (st.head_ = 0 →
      Next st = some (true, { st with out_ := { st.out_ with num_batch_padd := 0 } })) ∧
    (st.head_ = 1 → st.num_overflow_ = 0 →
      fillLoop st.param_.batch_size st.base_ { st.out_ with num_batch_padd := 0 } 0
        st.param_.batch_size = .full b' o' →
      Next st = some (true, { st with head_ := 0, base_ := b', out_ := o' })) := by
  constructor
  · intro hh
    exact Next_skip hs hh
  · intro hh ho hfill
    exact Next_full (by simp [hh]) ho hfill

/-- Witness for C3 at the concrete post-fill state (`head_ = 0`): the call
skips, leaving everything but the padding count unchanged. -/
theorem C3_witness :
    Next skipSt = some (true, { skipSt with
      out_ := { skipSt.out_ with num_batch_padd := 0 } }) :=
  (C3_skipread skipSt { dataset := [], pos := 0 }
    (AllocSpaceDense (paramOf 2 true true) 0) (by decide)).1 (by decide)

/-! ### C5 -/

/-- C5: when the Source is exhausted with `0 < top < batch_size` and
`round_batch` is disabled, Advance succeeds with
`padding_count = batch_size - top` and slots `top..batch_size-1` of the
data, label and index arrays keep the (stale) contents they had before the
call. -/
theorem C5_stale_padding (st : BatchAdaptIter α) (b' : BaseIter α) (o' : DataBatch α)
    (top : Nat)
    (hs : st.param_.test_skipread = false)
    (ho : st.num_overflow_ = 0)
    (hrb : st.param_.round_batch = false)
    (hfill : fillLoop st.param_.batch_size st.base_ { st.out_ with num_batch_padd := 0 } 0
      st.param_.batch_size = .exhausted b' o' top)
    (htop0 : 0 < top) (htopB : top < st.param_.batch_size) :
    ∃ st', Next st = some (true, st') ∧
      st'.out_.num_batch_padd = st.param_.batch_size - top ∧
      ∀ i, top ≤ i →
        st'.out_.data.get? i = st.out_.data.get? i ∧
        st'.out_.label.get? i = st.out_.label.get? i ∧
        st'.out_.inst_index.get? i = st.out_.inst_index.get? i := by
  refine ⟨_, Next_noround (by simp [hs]) ho hrb hfill (by omega), rfl, ?_⟩
  intro i hi
  have hframe := fillLoop_exh_frame st.param_.batch_size st.param_.batch_size st.base_
    { st.out_ with num_batch_padd := 0 } 0 b' o' top hfill i hi
  simpa using hframe

/-- Witness for C5: batch size 2 over a single sample — the short batch is
published with padding 1 and slot 1 untouched. -/
theorem C5_witness :
    ∃ st', Next (BeforeFirst (Init (paramOf 2 false false) (dsOf 1) 0)) = some (true, st') ∧
      st'.out_.num_batch_padd = (paramOf 2 false false).batch_size - 1 ∧
      ∀ i, 1 ≤ i →
        st'.out_.data.get? i = (BeforeFirst (Init (paramOf 2 false false)
          (dsOf 1) 0)).out_.data.get? i ∧
        st'.out_.label.get? i = (BeforeFirst (Init (paramOf 2 false false)
          (dsOf 1) 0)).out_.label.get? i ∧
        st'.out_.inst_index.get? i = (BeforeFirst (Init (paramOf 2 false false)
          (dsOf 1) 0)).out_.inst_index.get? i :=
  C5_stale_padding (BeforeFirst (Init (paramOf 2 false false) (dsOf 1) 0))
    { dataset := dsOf 1, pos := 1 }
    { num_batch_padd := 0, inst_index := [0, 0], batch_size := 2,
      data := [0, 0], label := [0, 0] } 1
    (by decide) (by decide) (by decide) (by decide) (by decide) (by decide)

/-! ### C8 -/

/-- C8 (counterexample): with `test_skipread` enabled (batch size 3 over 2
samples), the first Advance wraps and leaves `num_overflow_ = 1` pending,
yet the following Advance returns success, not end-of-stream. -/
theorem C8_cex :
    (stepState (BeforeFirst (Init (paramOf 3 true true) (dsOf 2) 0))).num_overflow_ = 1 ∧
    stepOk (stepState (BeforeFirst (Init (paramOf 3 true true) (dsOf 2) 0))) = true := by
  decide

/-- C8 (amended): with `test_skipread` disabled, once `num_overflow_ != 0`
is pending every subsequent Advance returns end-of-stream without touching
the Source cursor and with the overflow still pending, so no Advance can
succeed before Restart. -/
theorem C8_overflow_blocks (st : BatchAdaptIter α)
    (hs : st.param_.test_skipread = false)
    (ho : st.num_overflow_ ≠ 0) :
    ∀ n, stepOk (stepN n st) = false ∧
      (stepN n st).base_ = st.base_ ∧
      (stepN n st).num_overflow_ = st.num_overflow_ := by
  have hns : ¬(st.param_.test_skipread = true ∧ st.head_ = 0) := by simp [hs]
  have h1 := Next_overflow hns ho
  set s1 : BatchAdaptIter α :=
    { st with head_ := 0, out_ := { st.out_ with num_batch_padd := 0 } } with hs1
  have hfix : Next s1 = some (false, s1) := by
    have hns1 : ¬(s1.param_.test_skipread = true ∧ s1.head_ = 0) := by
      simp [hs1, hs]
    exact Next_overflow hns1 ho
  have hstep1 : stepState st = s1 := by simp [stepState, h1]
  have hstepfix : stepState s1 = s1 := by simp [stepState, hfix]
  have hfixn : ∀ n, stepN n s1 = s1 := by
    intro n
    induction n with
    | zero => rfl
    | succ m ihm => simp [stepN, hstepfix, ihm]
  intro n
  cases n with
  | zero => exact ⟨by simp [stepN, stepOk, h1], rfl, rfl⟩
  | succ m =>
    have hsn : stepN (m + 1) st = s1 := by simp [stepN, hstep1, hfixn m]
    rw [hsn]
    exact ⟨by simp [stepOk, hfix], rfl, rfl⟩

/-- Witness for C8 at the concrete wrapped state, two calls deep. -/
theorem C8_witness :
    stepOk (stepN 2 ovfSt) = false ∧
    (stepN 2 ovfSt).base_ = ovfSt.base_ ∧
    (stepN 2 ovfSt).num_overflow_ = ovfSt.num_overflow_ :=
  C8_overflow_blocks ovfSt (by decide) (by decide) 2

/-! ### C10, C6, C7: behaviour of failing and skipping calls -/

/-- `Value` succeeds as soon as `head_` is zero. -/
theorem Value_of_head0 (st : BatchAdaptIter α) (h : st.head_ = 0) :
    Value st = some st.out_ := by
  unfold Value
  rw [if_pos h]

/-- C10: after any Advance call — also one returning end-of-stream —
`head_` is 0, so CurrentBatch no longer raises the usage check and returns
the held batch; a failing call has left the batch contents untouched
except that it already reset the padding count to 0 on entry. -/
theorem C10_value_after_advance (st st' : BatchAdaptIter α) (b : Bool)
    (h : Next st = some (b, st')) :
    st'.head_ = 0 ∧ Value st' = some st'.out_ ∧
    (b = false →
      st'.out_.num_batch_padd = 0 ∧
      st'.out_.data = st.out_.data ∧
      st'.out_.label = st.out_.label ∧
      st'.out_.inst_index = st.out_.inst_index) := by
  rcases Next_inv h with ⟨hs, hh, hb, hst⟩ | ⟨hns, ho, hb, hst⟩ |
    ⟨hns, ho, b', o', hfill, hb, hst⟩ |
    ⟨hns, ho, hrb, b', o', top, b2, o2, n, hfill, htop, hrefill, hb, hst⟩ |
    ⟨hns, ho, hrb, b', o', top, hfill, htop, hb, hst⟩ |
    ⟨hns, ho, b', o', hfill, hb, hst⟩
  · subst hst; subst hb
    exact ⟨hh, Value_of_head0 _ hh, fun hbf => absurd hbf (by simp)⟩
  · subst hst; subst hb
    exact ⟨rfl, Value_of_head0 _ rfl, fun _ => ⟨rfl, rfl, rfl, rfl⟩⟩
  · subst hst; subst hb
    exact ⟨rfl, Value_of_head0 _ rfl, fun hbf => absurd hbf (by simp)⟩
  · subst hst; subst hb
    exact ⟨rfl, Value_of_head0 _ rfl, fun hbf => absurd hbf (by simp)⟩
  · subst hst; subst hb
    exact ⟨rfl, Value_of_head0 _ rfl, fun hbf => absurd hbf (by simp)⟩
  · subst hst; subst hb
    obtain ⟨-, hzero⟩ := fillLoop_exh_mono st.param_.batch_size st.param_.batch_size
      st.base_ { st.out_ with num_batch_padd := 0 } 0 b' o' 0 hfill
    obtain ⟨hb', ho'⟩ := hzero rfl
    subst ho'
    exact ⟨rfl, Value_of_head0 _ rfl, fun _ => ⟨rfl, rfl, rfl, rfl⟩⟩

/-- The assembler over an empty dataset: its first `Next` returns `false`. -/
def emptySt : BatchAdaptIter Nat :=
  BeforeFirst (Init (paramOf 2 true false) (dsOf 0) 0)

/-- Witness for C10 at a failing call over an empty dataset. -/
theorem C10_witness :
    (stepState emptySt).head_ = 0 ∧
    Value (stepState emptySt) = some (stepState emptySt).out_ ∧
    (false = false →
      (stepState emptySt).out_.num_batch_padd = 0 ∧
      (stepState emptySt).out_.data = emptySt.out_.data ∧
      (stepState emptySt).out_.label = emptySt.out_.label ∧
      (stepState emptySt).out_.inst_index = emptySt.out_.inst_index) :=
  C10_value_after_advance emptySt (stepState emptySt) false (by decide)

/-! ### C6 -/

/-- C6 (counterexample): batch size 4 over 10 samples.  The third Advance
wraps and publishes padding 2; the fourth Advance returns end-of-stream,
but it does NOT leave the previously published batch entirely unchanged:
its padding count is reset from 2 to 0. -/
theorem C6_cex :
    (stepN 3 (BeforeFirst (Init (paramOf 4 true false) (dsOf 10) 0))).out_.num_batch_padd = 2 ∧
    stepOk (stepN 3 (BeforeFirst (Init (paramOf 4 true false) (dsOf 10) 0))) = false ∧
    (stepN 4 (BeforeFirst (Init (paramOf 4 true false) (dsOf 10) 0))).out_.num_batch_padd = 0 := by
  decide

/-- C6 (amended): an Advance call that produces no batch (returns
end-of-stream) or that skips reading under `test_skipread` leaves the
previously published data, label and index slots untouched and does not
move the Source cursor, but always resets the padding count to 0 (the
reset happens on entry, before any branch is chosen). -/
theorem C6_no_partial (st st' : BatchAdaptIter α) (b : Bool)
    (h : Next st = some (b, st'))
    (hcase : b = false ∨ (st.param_.test_skipread = true ∧ st.head_ = 0)) :
    st'.out_.data = st.out_.data ∧
    st'.out_.label = st.out_.label ∧
    st'.out_.inst_index = st.out_.inst_index ∧
    st'.out_.num_batch_padd = 0 ∧
    st'.base_ = st.base_ := by
  rcases Next_inv h with ⟨hs, hh, hb, hst⟩ | ⟨hns, ho, hb, hst⟩ |
    ⟨hns, ho, b', o', hfill, hb, hst⟩ |
    ⟨hns, ho, hrb, b', o', top, b2, o2, n, hfill, htop, hrefill, hb, hst⟩ |
    ⟨hns, ho, hrb, b', o', top, hfill, htop, hb, hst⟩ |
    ⟨hns, ho, b', o', hfill, hb, hst⟩
  · subst hst
    exact ⟨rfl, rfl, rfl, rfl, rfl⟩
  · subst hst
    exact ⟨rfl, rfl, rfl, rfl, rfl⟩
  · subst hb
    rcases hcase with hbf | hsk
    · exact absurd hbf (by simp)
    · exact absurd hsk hns
  · subst hb
    rcases hcase with hbf | hsk
    · exact absurd hbf (by simp)
    · exact absurd hsk hns
  · subst hb
    rcases hcase with hbf | hsk
    · exact absurd hbf (by simp)
    · exact absurd hsk hns
  · subst hst
    obtain ⟨-, hzero⟩ := fillLoop_exh_mono st.param_.batch_size st.param_.batch_size
      st.base_ { st.out_ with num_batch_padd := 0 } 0 b' o' 0 hfill
    obtain ⟨hb', ho'⟩ := hzero rfl
    subst ho'; subst hb'
    exact ⟨rfl, rfl, rfl, rfl, rfl⟩

/-- Witness for C6 at the concrete failing fourth Advance of the 10-sample
batch-size-4 run. -/
theorem C6_witness :
    (stepN 4 (BeforeFirst (Init (paramOf 4 true false) (dsOf 10) 0))).out_.data =
      (stepN 3 (BeforeFirst (Init (paramOf 4 true false) (dsOf 10) 0))).out_.data ∧
    (stepN 4 (BeforeFirst (Init (paramOf 4 true false) (dsOf 10) 0))).out_.label =
      (stepN 3 (BeforeFirst (Init (paramOf 4 true false) (dsOf 10) 0))).out_.label ∧
    (stepN 4 (BeforeFirst (Init (paramOf 4 true false) (dsOf 10) 0))).out_.inst_index =
      (stepN 3 (BeforeFirst (Init (paramOf 4 true false) (dsOf 10) 0))).out_.inst_index ∧
    (stepN 4 (BeforeFirst (Init (paramOf 4 true false) (dsOf 10) 0))).out_.num_batch_padd = 0 ∧
    (stepN 4 (BeforeFirst (Init (paramOf 4 true false) (dsOf 10) 0))).base_ =
      (stepN 3 (BeforeFirst (Init (paramOf 4 true false) (dsOf 10) 0))).base_ :=
  C6_no_partial (stepN 3 (BeforeFirst (Init (paramOf 4 true false) (dsOf 10) 0)))
    (stepN 4 (BeforeFirst (Init (paramOf 4 true false) (dsOf 10) 0))) false
    (by decide) (Or.inl rfl)

/-! ### C7 -/

/-- C7 (counterexample): over an empty dataset the first Advance after
Restart returns `false` — no Advance has ever succeeded — yet CurrentBatch
does not raise the usage error: it returns the held batch. -/
theorem C7_cex :
    stepOk (BeforeFirst (Init (paramOf 2 true false) (dsOf 0) 0)) = false ∧
    Value (stepState (BeforeFirst (Init (paramOf 2 true false) (dsOf 0) 0))) =
      some (stepState (BeforeFirst (Init (paramOf 2 true false) (dsOf 0) 0))).out_ := by
  decide

/-- C7 (amended): CurrentBatch raises the fatal usage error iff `head_` is
nonzero, which holds exactly when NO Advance call of any outcome has been
made since construction/Restart: `Init` and `Restart` set `head_` to 1 and
every Advance call — successful or not — clears it. -/
theorem C7_value_guard (st st' : BatchAdaptIter α) (b : Bool) (p : BatchParam)
    (ds : List (DataInst α)) (z : α) :
    (Value st = none ↔ st.head_ ≠ 0) ∧
    (Init p ds z).head_ = 1 ∧
    (BeforeFirst st).head_ = 1 ∧
    (Next st = some (b, st') → st'.head_ = 0) := by
  refine ⟨?_, rfl, rfl, ?_⟩
  · unfold Value
    split_ifs with hh <;> simp [hh]
  · intro h
    rcases Next_inv h with ⟨hs, hh, hb, hst⟩ | ⟨hns, ho, hb, hst⟩ |
      ⟨hns, ho, b', o', hfill, hb, hst⟩ |
      ⟨hns, ho, hrb, b', o', top, b2, o2, n, hfill, htop, hrefill, hb, hst⟩ |
      ⟨hns, ho, hrb, b', o', top, hfill, htop, hb, hst⟩ |
      ⟨hns, ho, b', o', hfill, hb, hst⟩ <;> subst hst
    · exact hh
    all_goals rfl

/-- Witness for C7: the failing Advance over the empty dataset clears the
fresh marker. -/
theorem C7_witness : (stepState emptySt).head_ = 0 :=
  (C7_value_guard emptySt (stepState emptySt) false (paramOf 2 true false)
    (dsOf 0) 0).2.2.2 (by decide)

/-! ### C9: shape invariants of every produced batch -/

/-- States of the assembler reachable from `Init p ds z` by any sequence of
`BeforeFirst` (Restart) and non-fatal `Next` (Advance) calls. -/
inductive Reachable (p : BatchParam) (ds : List (DataInst α)) (z : α) :
    BatchAdaptIter α → Prop
  | init : Reachable p ds z (Init p ds z)
  | restart {st} : Reachable p ds z st → Reachable p ds z (BeforeFirst st)
  | advance {st b st'} : Reachable p ds z st → Next st = some (b, st') →
      Reachable p ds z st'

/-- Any non-fatal `Next` call preserves the configuration and the array
shape of the held batch, and bounds the new padding count by `batch_size`. -/
theorem Next_some_pres (st st' : BatchAdaptIter α) (b : Bool)
    (h : Next st = some (b, st')) :
    st'.param_ = st.param_ ∧
    st'.out_.batch_size = st.out_.batch_size ∧
    st'.out_.data.length = st.out_.data.length ∧
    st'.out_.label.length = st.out_.label.length ∧
    st'.out_.inst_index.length = st.out_.inst_index.length ∧
    st'.out_.num_batch_padd ≤ st.param_.batch_size := by
  rcases Next_inv h with ⟨hs, hh, hb, hst⟩ | ⟨hns, ho, hb, hst⟩ |
    ⟨hns, ho, b', o', hfill, hb, hst⟩ |
    ⟨hns, ho, hrb, b', o', top, b2, o2, n, hfill, htop, hrefill, hb, hst⟩ |
    ⟨hns, ho, hrb, b', o', top, hfill, htop, hb, hst⟩ |
    ⟨hns, ho, b', o', hfill, hb, hst⟩ <;> subst hst
  · exact ⟨rfl, rfl, rfl, rfl, rfl, Nat.zero_le _⟩
  · exact ⟨rfl, rfl, rfl, rfl, rfl, Nat.zero_le _⟩
  · obtain ⟨hp, hbs, hd, hl, hi⟩ := fillLoop_full_pres st.param_.batch_size
      st.param_.batch_size st.base_ { st.out_ with num_batch_padd := 0 } 0 b' o' hfill
    exact ⟨rfl, hbs, hd, hl, hi, by simp [hp]⟩
  · obtain ⟨hpF, hbsF, hdF, hlF, hiF⟩ := fillLoop_exh_pres st.param_.batch_size
      st.param_.batch_size st.base_ { st.out_ with num_batch_padd := 0 } 0 b' o' top hfill
    obtain ⟨hn, hpR, hbsR, hdR, hlR, hiR⟩ := refillLoop_some_facts st.param_.batch_size
      (st.param_.batch_size - top) top 0 b'.BeforeFirst o' b2 o2 n hrefill
    refine ⟨rfl, ?_, ?_, ?_, ?_, ?_⟩
    · exact hbsR.trans hbsF
    · exact hdR.trans hdF
    · exact hlR.trans hlF
    · exact hiR.trans hiF
    · show n ≤ st.param_.batch_size
      omega
  · obtain ⟨hpF, hbsF, hdF, hlF, hiF⟩ := fillLoop_exh_pres st.param_.batch_size
      st.param_.batch_size st.base_ { st.out_ with num_batch_padd := 0 } 0 b' o' top hfill
    exact ⟨rfl, hbsF, hdF, hlF, hiF, Nat.sub_le _ _⟩
  · obtain ⟨hpF, hbsF, hdF, hlF, hiF⟩ := fillLoop_exh_pres st.param_.batch_size
      st.param_.batch_size st.base_ { st.out_ with num_batch_padd := 0 } 0 b' o' 0 hfill
    exact ⟨rfl, hbsF, hdF, hlF, hiF, by simp [hpF]⟩

/-- `Restart` does not touch the configuration or the held batch. -/
theorem BeforeFirst_pres (st : BatchAdaptIter α) :
    (BeforeFirst st).param_ = st.param_ ∧ (BeforeFirst st).out_ = st.out_ := by
  unfold BeforeFirst
  dsimp only
  split_ifs <;> exact ⟨rfl, rfl⟩

/-- Every reachable state carries the configured parameters and batch
buffers of exactly `batch_size` slots. -/
theorem Reachable_inv {p : BatchParam} {ds : List (DataInst α)} {z : α}
    {st : BatchAdaptIter α} (h : Reachable p ds z st) :
    st.param_ = p ∧
    st.out_.batch_size = p.batch_size ∧
    st.out_.data.length = p.batch_size ∧
    st.out_.label.length = p.batch_size ∧
    st.out_.inst_index.length = p.batch_size := by
  induction h with
  | init => simp [Init, AllocSpaceDense]
  | restart hr ih =>
    obtain ⟨hp, hout⟩ := BeforeFirst_pres _
    rw [hp, hout]
    exact ih
  | advance hr hn ih =>
    obtain ⟨hp, hbs, hd, hl, hi, _⟩ := Next_some_pres _ _ _ hn
    exact ⟨hp.trans ih.1, hbs.trans ih.2.1, hd.trans ih.2.2.1,
      hl.trans ih.2.2.2.1, hi.trans ih.2.2.2.2⟩

/-- C9: from any reachable state of a configuration, every batch produced
by a successful Advance has exactly `batch_size` slots in its data, label
and index arrays and a padding count between 0 and `batch_size`. -/
theorem C9_batch_shape {p : BatchParam} {ds : List (DataInst α)} {z : α}
    {st st' : BatchAdaptIter α}
    (hr : Reachable p ds z st)
    (h : Next st = some (true, st')) :
    st'.out_.data.length = p.batch_size ∧
    st'.out_.label.length = p.batch_size ∧
    st'.out_.inst_index.length = p.batch_size ∧
    st'.out_.batch_size = p.batch_size ∧
    st'.out_.num_batch_padd ≤ p.batch_size := by
  obtain ⟨hp, hbs, hd, hl, hi⟩ := Reachable_inv hr
  obtain ⟨hp', hbs', hd', hl', hi', hpadd⟩ := Next_some_pres st st' true h
  refine ⟨hd'.trans hd, hl'.trans hl, hi'.trans hi, hbs'.trans hbs, ?_⟩
  rw [hp] at hpadd
  exact hpadd

/-- Witness for C9 at a concrete run: the first batch of a 4-sample
dataset with batch size 2. -/
theorem C9_witness :
    (stepState (BeforeFirst (Init (paramOf 2 true false) (dsOf 4) 0))).out_.data.length =
      (paramOf 2 true false).batch_size ∧
    (stepState (BeforeFirst (Init (paramOf 2 true false) (dsOf 4) 0))).out_.label.length =
      (paramOf 2 true false).batch_size ∧
    (stepState (BeforeFirst (Init (paramOf 2 true false)
      (dsOf 4) 0))).out_.inst_index.length = (paramOf 2 true false).batch_size ∧
    (stepState (BeforeFirst (Init (paramOf 2 true false) (dsOf 4) 0))).out_.batch_size =
      (paramOf 2 true false).batch_size ∧
    (stepState (BeforeFirst (Init (paramOf 2 true false)
      (dsOf 4) 0))).out_.num_batch_padd ≤ (paramOf 2 true false).batch_size :=
  @C9_batch_shape Nat (paramOf 2 true false) (dsOf 4) 0
    (BeforeFirst (Init (paramOf 2 true false) (dsOf 4) 0))
    (stepState (BeforeFirst (Init (paramOf 2 true false) (dsOf 4) 0)))
    (Reachable.restart Reachable.init) (by decide)

/-! ### C1 -/

/-- C1 (counterexample): batch size 3 over 10 samples with `round_batch`.
The first epoch ends with a wrap of padding 2 = 3 - (10 mod 3).  After
Restart the second epoch starts two samples in; its final Advance wraps
with 0 < top = 2 < 3 and succeeds, but publishes padding 1 with overflow 1
— not batch_size - (total mod batch_size) = 2, as the claim requires of
every epoch. -/
theorem C1_cex :
    stepOk (stepN 2 (BeforeFirst (stepN 4 (BeforeFirst (Init (paramOf 3 true false)
      (dsOf 10) 0))))) = true ∧
    (stepN 3 (BeforeFirst (stepN 4 (BeforeFirst (Init (paramOf 3 true false)
      (dsOf 10) 0))))).out_.num_batch_padd = 1 ∧
    (stepN 3 (BeforeFirst (stepN 4 (BeforeFirst (Init (paramOf 3 true false)
      (dsOf 10) 0))))).num_overflow_ = 1 ∧
    3 - 10 % 3 = 2 := by
  decide

/-- C1 (amended): when the Source is exhausted with `0 < top < batch_size`
under `round_batch` (and enough samples remain), Advance restarts the
Source, fills slots `top..batch_size-1` with the first samples of the new
epoch, succeeds, and publishes `padding_count = num_overflow =
batch_size - top`; the formula `batch_size - (total mod batch_size)` holds
only for an epoch that started at the beginning of the Source. -/
theorem C1_wrap_refill (st : BatchAdaptIter α) (b' : BaseIter α) (o' : DataBatch α)
    (top : Nat)
    (hs : st.param_.test_skipread = false)
    (ho : st.num_overflow_ = 0)
    (hrb : st.param_.round_batch = true)
    (hfill : fillLoop st.param_.batch_size st.base_ { st.out_ with num_batch_padd := 0 } 0
      st.param_.batch_size = .exhausted b' o' top)
    (htop0 : 0 < top) (htopB : top < st.param_.batch_size)
    (hlen : st.out_.inst_index.length = st.param_.batch_size)
    (hds : st.param_.batch_size - top ≤ b'.dataset.length) :
    ∃ st', Next st = some (true, st') ∧
      st'.out_.num_batch_padd = st.param_.batch_size - top ∧
      st'.num_overflow_ = st.param_.batch_size - top ∧
      ∀ j, j < st.param_.batch_size - top →
        st'.out_.inst_index.get? (top + j) = (b'.dataset.get? j).map DataInst.index := by
  have hnsk : ¬(st.param_.test_skipread = true ∧ st.head_ = 0) := by simp [hs]
  have hlen' : o'.inst_index.length = st.param_.batch_size := by
    have := (fillLoop_exh_pres st.param_.batch_size st.param_.batch_size st.base_
      { st.out_ with num_batch_padd := 0 } 0 b' o' top hfill).2.2.2.2
    simpa [hlen] using this
  obtain ⟨b2, o2, heq, hds2, hpos2, hcontent, hframe⟩ :=
    refillLoop_success st.param_.batch_size (st.param_.batch_size - top) top 0
      b'.BeforeFirst o' rfl (by omega) hlen'
      (by simpa [BaseIter.BeforeFirst] using hds)
  refine ⟨_, Next_wrap hnsk ho hrb hfill (by omega) heq, by simp, by simp, ?_⟩
  intro j hj
  have hc := hcontent j hj
  simpa [BaseIter.BeforeFirst] using hc

/-- Witness for C1 at batch size 3 over 2 samples: the first Advance wraps
at top = 2 and pads slot 2 with the first sample of the new epoch. -/
theorem C1_witness :
    ∃ st', Next (BeforeFirst (Init (paramOf 3 true false) (dsOf 2) 0)) = some (true, st') ∧
      st'.out_.num_batch_padd = (paramOf 3 true false).batch_size - 2 ∧
      st'.num_overflow_ = (paramOf 3 true false).batch_size - 2 ∧
      ∀ j, j < (paramOf 3 true false).batch_size - 2 →
        st'.out_.inst_index.get? (2 + j) =
          (({ dataset := dsOf 2, pos := 2 } : BaseIter Nat).dataset.get? j).map
            DataInst.index :=
  C1_wrap_refill (BeforeFirst (Init (paramOf 3 true false) (dsOf 2) 0))
    { dataset := dsOf 2, pos := 2 }
    { num_batch_padd := 0, inst_index := [0, 1, 0], batch_size := 3,
      data := [0, 1, 0], label := [0, 1, 0] } 2
    (by decide) (by decide) (by decide) (by decide) (by decide) (by decide)
    (by decide) (by decide)

/-! ### C4 -/

/-- C4 (counterexample): a dataset of 2 samples with batch size 3 — the
total is SMALLER than batch_size, yet the first Advance succeeds without
any fatal error: the refill only needs batch_size - top = 1 sample from
the new epoch.  The claimed equivalence "fatal iff total < batch_size"
fails. -/
theorem C4_cex :
    stepOk (BeforeFirst (Init (paramOf 3 true false) (dsOf 2) 0)) = true ∧
    (Next (BeforeFirst (Init (paramOf 3 true false) (dsOf 2) 0))).isSome = true ∧
    (stepState (BeforeFirst (Init (paramOf 3 true false) (dsOf 2) 0))).num_overflow_ = 1 ∧
    (2 : Nat) < 3 := by
  decide

/-- C4 (amended): the round-robin refill of a short final batch is fatal
iff the whole dataset holds fewer than the `batch_size - top` missing
samples, i.e. iff `total_samples + top < batch_size`.  In particular it
always succeeds when `total_samples ≥ batch_size`, but
`total_samples < batch_size` alone does not make it fail. -/
theorem C4_refill_fatal (st : BatchAdaptIter α) (b' : BaseIter α) (o' : DataBatch α)
    (top : Nat)
    (hs : st.param_.test_skipread = false)
    (ho : st.num_overflow_ = 0)
    (hrb : st.param_.round_batch = true)
    (hfill : fillLoop st.param_.batch_size st.base_ { st.out_ with num_batch_padd := 0 } 0
      st.param_.batch_size = .exhausted b' o' top)
    (htop0 : 0 < top) (htopB : top < st.param_.batch_size)
    (hlen : st.out_.inst_index.length = st.param_.batch_size) :
    (Next st = none ↔ b'.dataset.length + top < st.param_.batch_size) ∧
    (st.param_.batch_size ≤ b'.dataset.length → ∃ st', Next st = some (true, st')) := by
  have hnsk : ¬(st.param_.test_skipread = true ∧ st.head_ = 0) := by simp [hs]
  have hlen' : o'.inst_index.length = st.param_.batch_size := by
    have := (fillLoop_exh_pres st.param_.batch_size st.param_.batch_size st.base_
      { st.out_ with num_batch_padd := 0 } 0 b' o' top hfill).2.2.2.2
    simpa [hlen] using this
  constructor
  · constructor
    · intro hnone
      by_contra hge
      push_neg at hge
      obtain ⟨b2, o2, heq, -, -, -, -⟩ :=
        refillLoop_success st.param_.batch_size (st.param_.batch_size - top) top 0
          b'.BeforeFirst o' rfl (by omega) hlen'
          (by simp [BaseIter.BeforeFirst]; omega)
      rw [Next_wrap hnsk ho hrb hfill (by omega) heq] at hnone
      exact Option.noConfusion hnone
    · intro hlt
      have hnone := refillLoop_fail st.param_.batch_size (st.param_.batch_size - top) top 0
        b'.BeforeFirst o' rfl (by simp [BaseIter.BeforeFirst])
        (by simp [BaseIter.BeforeFirst]; omega)
      exact Next_wrap_fatal hnsk ho hrb hfill (by omega) hnone
  · intro hB
    obtain ⟨b2, o2, heq, -, -, -, -⟩ :=
      refillLoop_success st.param_.batch_size (st.param_.batch_size - top) top 0
        b'.BeforeFirst o' rfl (by omega) hlen'
        (by simp [BaseIter.BeforeFirst]; omega)
    exact ⟨_, Next_wrap hnsk ho hrb hfill (by omega) heq⟩

/-- Witness for C4 at batch size 3 over a single sample: the refill needs
two samples, the dataset holds one, and Advance is fatal — the iff holds
with both sides true. -/
theorem C4_witness :
    (Next (BeforeFirst (Init (paramOf 3 true false) (dsOf 1) 0)) = none ↔
      ({ dataset := dsOf 1, pos := 1 } : BaseIter Nat).dataset.length + 1 <
        (paramOf 3 true false).batch_size) ∧
    ((paramOf 3 true false).batch_size ≤
        ({ dataset := dsOf 1, pos := 1 } : BaseIter Nat).dataset.length →
      ∃ st', Next (BeforeFirst (Init (paramOf 3 true false) (dsOf 1) 0)) =
        some (true, st')) :=
  C4_refill_fatal (BeforeFirst (Init (paramOf 3 true false) (dsOf 1) 0))
    { dataset := dsOf 1, pos := 1 }
    { num_batch_padd := 0, inst_index := [0, 0, 0], batch_size := 3,
      data := [0, 0, 0], label := [0, 0, 0] } 1
    (by decide) (by decide) (by decide) (by decide) (by decide) (by decide)
    (by decide)

end MxNet
